import Mathlib

/-!
Verification of the spatial content cache and asynchronous generation
pipeline of `main.py` (the AI-generated game world demo).

The Python source is shallowly embedded: continuous positions and angles
(numpy floats in the source) become rationals; the external tokenizer
(`model.tokenizer.encode` followed by `len`) becomes an arbitrary function
`tok : String → Nat`; generated images / OpenGL texture ids become opaque
`Nat` handles.  The player object together with the global `image_cache`
dictionary becomes a `GameState` record, and each method of the `Player`
class becomes a state-transition function.  The background generation
thread is modelled by two transition functions (`pushResult` for the
success path, `failResult` for the exception path) together with a step
relation `Step` that fires them only while a generation is actually in
flight (`generating = true`, with `cache_key` set, exactly the situation
in which the source's `run_generation` closure runs).
-/

/-- Python's `int()` applied to a rational: truncation toward zero.
Used for `int(self.position[0] * 10)` and `x0, y0 = int(...), int(...)`. -/
def pyInt (q : ℚ) : ℤ :=
  if 0 ≤ q then ⌊q⌋ else -⌊-q⌋

/-- `np.clip(v, lo, hi)` on one component. -/
def npClip (lo hi v : ℚ) : ℚ :=
  min hi (max lo v)

/-- `grid_size = (5, 5)` from the source. -/
def grid_size : ℤ × ℤ := (5, 5)

/-- The static 5×5 prompt table `grid_prompts` from the source, verbatim. -/
def grid_prompts : List (List String) :=
  [ ["A futuristic cityscape", "A serene beach", "A dense forest",
     "A snowy mountain", "A desert landscape"],
    ["An underwater coral reef", "A bustling medieval market", "An alien planet",
     "A magical floating castle", "A volcanic landscape"],
    ["A night sky with galaxies", "A sunflower field", "An abstract painting",
     "A futuristic spaceship interior", "A peaceful Japanese garden"],
    ["A haunted house on a hill", "A tropical rainforest", "A cyberpunk street scene",
     "An ice cave with crystals", "A grassy meadow with wildflowers"],
    ["An ancient temple in the jungle", "A futuristic laboratory",
     "A mystical swamp with glowing plants", "A grand library with endless shelves",
     "An open ocean with whales"] ]

/-- `grid[i][j]` (the source aliases `grid = grid_prompts`); out-of-range
indices give `""` in the model (the source would raise, but every claim
only evaluates it at valid indices). -/
def gridAt (i j : ℤ) : String :=
  (((grid_prompts.get? i.toNat).getD []).get? j.toNat).getD ""

/-- The loop body of `combine_prompts`: iterate over `zip(prompts, weights)`
carrying the accumulator `combined`.  For a positive weight the label is
appended (with separator `" | "` when `combined` is non-empty, matching
Python's truthiness test `if combined:`), and **after** appending, the
tokenized length of the new accumulator is compared against `max_length`;
if it exceeds it, the loop `break`s, returning the accumulator that
already includes the overflowing label. -/
def combineLoop (tok : String → Nat) (maxLength : Nat) :
    List (String × ℚ) → String → String
  | [], combined => combined
  | (prompt, weight) :: rest, combined =>
    if 0 < weight then
      let combined' := if combined = "" then prompt else combined ++ " | " ++ prompt
      if maxLength < tok combined' then combined'
      else combineLoop tok maxLength rest combined'
    else combineLoop tok maxLength rest combined

/-- `combine_prompts(prompts, weights, max_length=77)` from the source,
parametrised by the external tokenizer length oracle `tok`
(`len(model.tokenizer.encode(·))` in the source); the source's default
`max_length=77` is passed explicitly by `blendPrompt`. -/
def combine_prompts (tok : String → Nat) (prompts : List String)
    (weights : List ℚ) (maxLength : Nat) : String :=
  combineLoop tok maxLength (prompts.zip weights) ""

/-- The four labels and four bilinear weights computed inside
`Player.generate_image` (lines 117–132): `x0, y0 = int(position)`,
`x1, y1 = min(x0+1, 4), min(y0+1, 4)`, `t = position - (x0, y0)`,
labels `[grid[x0][y0], grid[x1][y0], grid[x0][y1], grid[x1][y1]]`,
weights `[(1-tx)(1-ty), tx(1-ty), (1-tx)ty, tx·ty]`. -/
def blendInputs (pos : ℚ × ℚ) : List String × List ℚ :=
  let x0 := pyInt pos.1
  let y0 := pyInt pos.2
  let x1 := min (x0 + 1) (grid_size.1 - 1)
  let y1 := min (y0 + 1) (grid_size.2 - 1)
  let tx : ℚ := pos.1 - x0
  let ty : ℚ := pos.2 - y0
  ([gridAt x0 y0, gridAt x1 y0, gridAt x0 y1, gridAt x1 y1],
   [(1 - tx) * (1 - ty), tx * (1 - ty), (1 - tx) * ty, tx * ty])

/-- The blended prompt `combined_prompt = combine_prompts(prompts, weights)`
derived from a position (the source's default `max_length = 77`). -/
def blendPrompt (tok : String → Nat) (pos : ℚ × ℚ) : String :=
  combine_prompts tok (blendInputs pos).1 (blendInputs pos).2 77

/-- Joining a list of labels with the separator `" | "`, the shape
`combine_prompts` builds when every accumulated label is appended. -/
def sepJoin : List String → String
  | [] => ""
  | [l] => l
  | l :: rest => l ++ " | " ++ sepJoin rest

/-- The cache key `(int(x*10), int(y*10))` of `Player.generate_image`. -/
def quantizeKey (pos : ℚ × ℚ) : ℤ × ℤ :=
  (pyInt (pos.1 * 10), pyInt (pos.2 * 10))

/-- Squared Euclidean distance; the source compares
`np.linalg.norm(position - last_position) > 0.1`, which for exact
arithmetic is equivalent to the squared distance exceeding `1/100`. -/
def dist2 (a b : ℚ × ℚ) : ℚ :=
  (a.1 - b.1) ^ 2 + (a.2 - b.2) ^ 2

/-- The state visible to the control loop: the `Player` object's fields
together with the global `image_cache` dictionary.  The dictionary and the
`queue.Queue` are association lists of `(cache key, texture id)`; dict
insertion conses at the front so `List.lookup` sees the newest binding,
matching Python dict overwrite. -/
structure GameState where
  position : ℚ × ℚ
  angle : ℚ × ℚ
  image : Option Nat
  generating : Bool
  last_position : Option (ℚ × ℚ)
  cache_key : Option (ℤ × ℤ)
  image_queue : List ((ℤ × ℤ) × Nat)
  image_cache : List ((ℤ × ℤ) × Nat)
deriving DecidableEq, Repr

/-- `Player.__init__(position)` with the empty global cache. -/
def initState (pos : ℚ × ℚ) : GameState :=
  { position := pos
    angle := (0, 0)
    image := none
    generating := false
    last_position := none
    cache_key := none
    image_queue := []
    image_cache := [] }

/-- `Player.move(direction)`: add the delta, then clamp both components
into `[0, grid_size - 1] = [0, 4]`. -/
def moveFn (s : GameState) (d : ℚ × ℚ) : GameState :=
  { s with position :=
      (npClip 0 ((grid_size.1 : ℚ) - 1) (s.position.1 + d.1),
       npClip 0 ((grid_size.2 : ℚ) - 1) (s.position.2 + d.2)) }

/-- `Player.look(d_angle)`: accumulate yaw unboundedly, clamp pitch to
`[-90, 90]`. -/
def lookFn (s : GameState) (d : ℚ × ℚ) : GameState :=
  { s with angle := (s.angle.1 + d.1, npClip (-90) 90 (s.angle.2 + d.2)) }

/-- `Player.generate_image()`: early-return while `generating`; otherwise
set `generating`, record `last_position` and the quantized `cache_key`;
on a cache hit take the cached texture and clear `generating`; on a miss
leave `generating` set — the background thread has been spawned (the
blended prompt it receives is `blendPrompt`, which does not affect the
state; the opaque producer's result arrives later via `pushResult` /
`failResult`). -/
def generate_image (s : GameState) : GameState :=
  if s.generating then s
  else
    let key := quantizeKey s.position
    match s.image_cache.lookup key with
    | some tex => { s with image := some tex, generating := false,
                           last_position := some s.position, cache_key := some key }
    | none => { s with generating := true,
                       last_position := some s.position, cache_key := some key }

/-- The regeneration decision of the main loop (lines 305–306): call
`generate_image` when `last_position` is unset or the position has moved
more than `0.1` from it. -/
def maybe_regenerate (s : GameState) : GameState :=
  match s.last_position with
  | none => generate_image s
  | some p => if 1 / 100 < dist2 s.position p then generate_image s else s

/-- `Player.process_generated_image()`: one non-blocking
`image_queue.get_nowait()`; if an entry is available, convert it to a
texture, store it in `image_cache` and make it the current image; if the
queue is empty (`queue.Empty`), do nothing. -/
def process_generated_image (s : GameState) : GameState :=
  match s.image_queue with
  | [] => s
  | (key, tex) :: rest =>
    { s with image_queue := rest
             image_cache := (key, tex) :: s.image_cache
             image := some tex }

/-- The success path of the spawned `run_generation` closure: it puts
`(self.cache_key, image)` on the queue and the `finally` block clears
`self.generating`.  `k` is the player's `cache_key` at that moment (the
step relation enforces `cache_key = some k`). -/
def pushResult (s : GameState) (k : ℤ × ℤ) (tex : Nat) : GameState :=
  { s with image_queue := s.image_queue ++ [(k, tex)]
           generating := false }

/-- The exception path of the spawned `run_generation` closure: the error
is only printed; the `finally` block clears `self.generating`.  Nothing is
queued and the cache is untouched. -/
def failResult (s : GameState) : GameState :=
  { s with generating := false }

/-- One observable step of the system: a control-loop operation (move,
look, the regeneration decision, the queue drain) or the completion /
failure of the in-flight background generation (possible only while
`generating` is set, which in the source means the spawned thread is
still running and `cache_key` was set when it was spawned). -/
inductive Step : GameState → GameState → Prop
  | move (s : GameState) (d : ℚ × ℚ) : Step s (moveFn s d)
  | look (s : GameState) (d : ℚ × ℚ) : Step s (lookFn s d)
  | regen (s : GameState) : Step s (maybe_regenerate s)
  | gen_success (s : GameState) (k : ℤ × ℤ) (tex : Nat)
      (hg : s.generating = true) (hk : s.cache_key = some k) :
      Step s (pushResult s k tex)
  | gen_fail (s : GameState) (hg : s.generating = true) :
      Step s (failResult s)
  | drain (s : GameState) : Step s (process_generated_image s)

/-- States reachable from the game's initial state (player at `(2.5, 2.5)`). -/
def Reachable (s : GameState) : Prop :=
  Relation.ReflTransGen Step (initState (5 / 2, 5 / 2)) s

/-- The position is inside the grid, `[0, 4] × [0, 4]`. -/
def inBounds (pos : ℚ × ℚ) : Prop :=
  0 ≤ pos.1 ∧ pos.1 ≤ (grid_size.1 : ℚ) - 1 ∧
  0 ≤ pos.2 ∧ pos.2 ≤ (grid_size.2 : ℚ) - 1

/-- A valid index into one axis of the 5×5 prompt grid. -/
def validIndex (i : ℤ) : Prop := 0 ≤ i ∧ i < 5

/-- A state whose result queue holds two completed artifacts (the situation
of the C6 trace just before the drains). -/
def c2State : GameState :=
  { initState (0, 0) with image_queue := [((0, 0), 1), ((1, 1), 2)] }

/-- A state with a generation in flight for key `(0,0)` and one result
already queued. -/
def c3State : GameState :=
  { initState (0, 0) with generating := true, cache_key := some (0, 0),
                          image_queue := [((0, 0), 5)] }

/-- A state with a generation in flight for key `(0,0)` (the key the
position `(0,0)` quantizes to) and an empty cache. -/
def c4State : GameState :=
  { initState (0, 0) with generating := true, cache_key := some (0, 0) }

/-- A state at `(2.65, 2.5)` whose last request was issued at `(2.5, 2.5)`:
the scenario's second move, distance `0.15`. -/
def c5FarState : GameState :=
  { initState (53 / 20, 5 / 2) with last_position := some (5 / 2, 5 / 2) }

/-- A state whose cache already holds an artifact for key `(0,0)`, the key
the position `(0,0)` quantizes to. -/
def c10State : GameState :=
  { initState (0, 0) with image_cache := [((0, 0), 7)] }

/-! States of the concrete execution refuting cache-fill idempotence (C6).
The trace follows the control loop: the startup `generate_image` spawns
production 1 at `(2.5, 2.5)`; while it runs the player moves twice by
`(0.045, 0.045)` (per-frame move deltas have magnitude at most
`0.05·√2 ≈ 0.0707`; the intervening regeneration checks are no-ops while
`generating` is set, and the per-frame drains are no-ops on the empty
queue); production 1 completes with texture 1; a further move by
`(0.009, 0.009)` reaches `(2.599, 2.599)`, distance `≈ 0.14 > 0.1` from
the last request but still in key cell `(25, 25)`, so the regeneration
decision spawns production 2 for the *same* key — the cache is still
empty because result 1 sits undrained in the queue (the loop drains after
regenerating).  The next two drains then insert texture 1 and overwrite
it with texture 2. -/

/-- After the startup regeneration at `(2.5, 2.5)`: production 1 in flight. -/
def c6s1 : GameState :=
  { position := (5 / 2, 5 / 2), angle := (0, 0), image := none,
    generating := true, last_position := some (5 / 2, 5 / 2),
    cache_key := some (25, 25), image_queue := [], image_cache := [] }

/-- After a move by `(0.045, 0.045)`. -/
def c6s2 : GameState := { c6s1 with position := (509 / 200, 509 / 200) }

/-- After a second move by `(0.045, 0.045)`: position `(2.59, 2.59)`. -/
def c6s3 : GameState := { c6s2 with position := (259 / 100, 259 / 100) }

/-- Production 1 completes with texture 1. -/
def c6s4 : GameState :=
  { c6s3 with image_queue := [((25, 25), 1)], generating := false }

/-- After a move by `(0.009, 0.009)`: position `(2.599, 2.599)`. -/
def c6s5 : GameState := { c6s4 with position := (2599 / 1000, 2599 / 1000) }

/-- The regeneration decision fires (distance `> 0.1`, key `(25, 25)` not
cached — its artifact is still queued) and spawns production 2. -/
def c6s6 : GameState :=
  { c6s5 with generating := true,
              last_position := some (2599 / 1000, 2599 / 1000),
              cache_key := some (25, 25) }

/-- The same frame's drain inserts texture 1 for key `(25, 25)`. -/
def c6s7 : GameState :=
  { c6s6 with image_queue := [], image_cache := [((25, 25), 1)],
              image := some 1 }

/-- Production 2 completes with texture 2. -/
def c6s8 : GameState :=
  { c6s7 with image_queue := [((25, 25), 2)], generating := false }

/-- The next drain overwrites key `(25, 25)` with texture 2. -/
def c6s9 : GameState :=
  { c6s8 with image_queue := [],
              image_cache := [((25, 25), 2), ((25, 25), 1)],
              image := some 2 }

/-! ## Helper lemmas -/

theorem pyInt_intCast (i : ℤ) : pyInt (i : ℚ) = i := by
  unfold pyInt
  rcases le_or_lt 0 i with h | h
  · rw [if_pos (by exact_mod_cast h), Int.floor_intCast]
  · rw [if_neg (not_le.mpr (by exact_mod_cast h)), ← Int.cast_neg, Int.floor_intCast, neg_neg]

theorem pyInt_eq_floor (q : ℚ) (h : 0 ≤ q) : pyInt q = ⌊q⌋ := by
  unfold pyInt
  rw [if_pos h]

theorem le_npClip (lo hi v : ℚ) (h : lo ≤ hi) : lo ≤ npClip lo hi v :=
  le_min h (le_max_left lo v)

theorem npClip_le (lo hi v : ℚ) : npClip lo hi v ≤ hi :=
  min_le_left hi _

theorem string_append_ne_empty_left (a b : String) (h : a ≠ "") : a ++ b ≠ "" := by
  intro hc
  apply h
  have hd := congrArg String.data hc
  simp only [String.data_append] at hd
  exact String.ext (List.append_eq_nil.mp hd).1

theorem string_sep_append_ne_empty (a b : String) : a ++ " | " ++ b ≠ "" := by
  intro hc
  have hd := congrArg String.data hc
  simp only [String.data_append] at hd
  simp at hd

/-- `List.lookup` on a freshly consed binding, with propositional `if`. -/
theorem lookup_cons (k k0 : ℤ × ℤ) (v0 : Nat) (c : List ((ℤ × ℤ) × Nat)) :
    List.lookup k ((k0, v0) :: c) = if k = k0 then some v0 else List.lookup k c := by
  simp [List.lookup]
  split <;> simp_all

theorem generate_image_cache_eq (s : GameState) :
    (generate_image s).image_cache = s.image_cache := by
  unfold generate_image
  split
  · rfl
  · dsimp only
    split <;> rfl

theorem maybe_regenerate_cache_eq (s : GameState) :
    (maybe_regenerate s).image_cache = s.image_cache := by
  unfold maybe_regenerate
  rcases s.last_position with _ | p
  · exact generate_image_cache_eq s
  · dsimp only
    split
    · exact generate_image_cache_eq s
    · rfl

theorem moveFn_inBounds (s : GameState) (d : ℚ × ℚ) :
    inBounds (moveFn s d).position := by
  have h4 : (0 : ℚ) ≤ (grid_size.1 : ℚ) - 1 := by norm_num [grid_size]
  have h4' : (0 : ℚ) ≤ (grid_size.2 : ℚ) - 1 := by norm_num [grid_size]
  exact ⟨le_npClip _ _ _ h4, npClip_le _ _ _, le_npClip _ _ _ h4', npClip_le _ _ _⟩

theorem foldl_moveFn_inBounds (s : GameState) (ds : List (ℚ × ℚ))
    (h : inBounds s.position) : inBounds ((ds.foldl moveFn s).position) := by
  induction ds generalizing s with
  | nil => exact h
  | cons d rest ih => exact ih (moveFn s d) (moveFn_inBounds s d)

theorem pyInt_validIndex (q : ℚ) (h0 : 0 ≤ q) (h4 : q ≤ 4) :
    validIndex (pyInt q) := by
  rw [pyInt_eq_floor q h0]
  constructor
  · exact Int.le_floor.mpr (by exact_mod_cast h0)
  · have hle : (⌊q⌋ : ℚ) ≤ 4 := le_trans (Int.floor_le q) h4
    have : ⌊q⌋ ≤ 4 := by exact_mod_cast hle
    omega

/-! ## Claim C7 -/

/-- C7: for every sequence of `move` calls from an in-bounds start the
position stays within `[0, 4] × [0, 4]` (each single `move` clamps back
into bounds regardless of the start), and for any in-bounds position all
four grid indices `x0, y0, x1, y1` computed by the blend derivation are
valid indices into the 5×5 prompt grid. -/
theorem C7_bounds_and_valid_indices :
    (∀ (s : GameState) (d : ℚ × ℚ), inBounds (moveFn s d).position) ∧
    (∀ (s : GameState) (ds : List (ℚ × ℚ)), inBounds s.position →
       inBounds ((ds.foldl moveFn s).position)) ∧
    (∀ pos : ℚ × ℚ, inBounds pos →
       validIndex (pyInt pos.1) ∧ validIndex (pyInt pos.2) ∧
       validIndex (min (pyInt pos.1 + 1) (grid_size.1 - 1)) ∧
       validIndex (min (pyInt pos.2 + 1) (grid_size.2 - 1))) := by
  refine ⟨moveFn_inBounds, foldl_moveFn_inBounds, ?_⟩
  intro pos hb
  obtain ⟨hx0, hx4, hy0, hy4⟩ := hb
  have hx4' : pos.1 ≤ 4 := by rw [show ((grid_size.1 : ℚ) - 1) = 4 by norm_num [grid_size]] at hx4; exact hx4
  have hy4' : pos.2 ≤ 4 := by rw [show ((grid_size.2 : ℚ) - 1) = 4 by norm_num [grid_size]] at hy4; exact hy4
  have ix := pyInt_validIndex pos.1 hx0 hx4'
  have iy := pyInt_validIndex pos.2 hy0 hy4'
  refine ⟨ix, iy, ?_, ?_⟩
  · obtain ⟨i0, _⟩ := ix
    constructor
    · exact le_min (by omega) (by norm_num [grid_size])
    · have : min (pyInt pos.1 + 1) (grid_size.1 - 1) ≤ grid_size.1 - 1 := min_le_right _ _
      simp only [grid_size] at this ⊢
      omega
  · obtain ⟨j0, _⟩ := iy
    constructor
    · exact le_min (by omega) (by norm_num [grid_size])
    · have : min (pyInt pos.2 + 1) (grid_size.2 - 1) ≤ grid_size.2 - 1 := min_le_right _ _
      simp only [grid_size] at this ⊢
      omega

/-- Witness for C7 at a concrete input: one move by `(10, -3)` from the
initial state at `(2.5, 2.5)` lands in bounds, and the in-bounds position
`(2.5, 2.5)` yields valid grid indices. -/
theorem C7_bounds_and_valid_indices_witness :
    inBounds ((([((10 : ℚ), (-3 : ℚ))]).foldl moveFn (initState (5 / 2, 5 / 2))).position) ∧
    validIndex (pyInt ((5 : ℚ) / 2)) :=
  ⟨C7_bounds_and_valid_indices.2.1 (initState (5 / 2, 5 / 2)) [((10 : ℚ), (-3 : ℚ))]
      (by norm_num [initState, inBounds, grid_size]),
   (C7_bounds_and_valid_indices.2.2 (5 / 2, 5 / 2)
      (by norm_num [inBounds, grid_size])).1⟩

/-! ## Claim C8 -/

/-- C8: a single `look` update always leaves the pitch within `[-90, 90]`,
any nonempty sequence of `look` updates does as well, and the yaw after
any sequence of updates equals the initial yaw plus exactly the sum of the
applied yaw deltas. -/
theorem C8_look_pitch_clamp_yaw_sum :
    (∀ (s : GameState) (d : ℚ × ℚ),
       -90 ≤ (lookFn s d).angle.2 ∧ (lookFn s d).angle.2 ≤ 90) ∧
    (∀ (s : GameState) (ds : List (ℚ × ℚ)), ds ≠ [] →
       -90 ≤ ((ds.foldl lookFn s).angle.2) ∧ ((ds.foldl lookFn s).angle.2) ≤ 90) ∧
    (∀ (s : GameState) (ds : List (ℚ × ℚ)),
       (ds.foldl lookFn s).angle.1 = s.angle.1 + (ds.map Prod.fst).sum) := by
  have single : ∀ (s : GameState) (d : ℚ × ℚ),
      -90 ≤ (lookFn s d).angle.2 ∧ (lookFn s d).angle.2 ≤ 90 := by
    intro s d
    exact ⟨le_npClip _ _ _ (by norm_num), npClip_le _ _ _⟩
  have pres : ∀ (ds : List (ℚ × ℚ)) (s : GameState),
      -90 ≤ s.angle.2 → s.angle.2 ≤ 90 →
      -90 ≤ ((ds.foldl lookFn s).angle.2) ∧ ((ds.foldl lookFn s).angle.2) ≤ 90 := by
    intro ds
    induction ds with
    | nil => exact fun s h1 h2 => ⟨h1, h2⟩
    | cons d rest ih =>
      intro s _ _
      exact ih (lookFn s d) (single s d).1 (single s d).2
  refine ⟨single, ?_, ?_⟩
  · intro s ds hne
    match ds with
    | d :: rest =>
      exact pres rest (lookFn s d) (single s d).1 (single s d).2
  · intro s ds
    induction ds generalizing s with
    | nil => simp
    | cons d rest ih =>
      rw [List.foldl_cons, ih (lookFn s d)]
      simp only [lookFn, List.map_cons, List.sum_cons]
      ring

/-- Witness for C8 at a concrete input: two look updates
`(30, 100), (-5, 17)` from the initial state keep the pitch in `[-90, 90]`
and accumulate the yaw `0 + (30 + (-5))`. -/
theorem C8_look_pitch_clamp_yaw_sum_witness :
    (-90 ≤ ((([((30 : ℚ), (100 : ℚ)), ((-5 : ℚ), (17 : ℚ))]).foldl lookFn
        (initState (5 / 2, 5 / 2))).angle.2) ∧
     ((([((30 : ℚ), (100 : ℚ)), ((-5 : ℚ), (17 : ℚ))]).foldl lookFn
        (initState (5 / 2, 5 / 2))).angle.2) ≤ 90) ∧
    (([((30 : ℚ), (100 : ℚ)), ((-5 : ℚ), (17 : ℚ))]).foldl lookFn
        (initState (5 / 2, 5 / 2))).angle.1 =
      (initState (5 / 2, 5 / 2)).angle.1 +
        (([((30 : ℚ), (100 : ℚ)), ((-5 : ℚ), (17 : ℚ))]).map Prod.fst).sum :=
  ⟨C8_look_pitch_clamp_yaw_sum.2.1 (initState (5 / 2, 5 / 2))
      [((30 : ℚ), (100 : ℚ)), ((-5 : ℚ), (17 : ℚ))] (by simp),
   C8_look_pitch_clamp_yaw_sum.2.2 (initState (5 / 2, 5 / 2))
      [((30 : ℚ), (100 : ℚ)), ((-5 : ℚ), (17 : ℚ))]⟩

/-! ## Claim C10 -/

/-- C10: when `generate_image` runs with `generating` clear and the
quantized key of the current position already cached, it sets the current
image to the cached artifact and returns with `generating` false,
`last_position` updated to the current position, and the key recorded;
the result queue and the cache are untouched and no production is
spawned (the whole effect is the stated record update). -/
theorem C10_cache_hit_path (s : GameState) (k : ℤ × ℤ) (tex : Nat)
    (hg : s.generating = false) (hk : quantizeKey s.position = k)
    (hc : s.image_cache.lookup k = some tex) :
    generate_image s =
      { s with image := some tex, generating := false,
               last_position := some s.position, cache_key := some k } := by
  unfold generate_image
  rw [hk] at *
  simp [hg, hc]

/-- Witness for C10: in the state at `(0, 0)` whose cache holds texture 7
for key `(0, 0)`, `generate_image` takes the cache-hit path. -/
theorem C10_cache_hit_path_witness :
    generate_image c10State =
      { c10State with image := some 7, generating := false,
                      last_position := some c10State.position,
                      cache_key := some (0, 0) } :=
  C10_cache_hit_path c10State (0, 0) 7 rfl
    (by simp [c10State, initState, quantizeKey, pyInt]) rfl

/-! ## Claim C4 -/

/-- C4: if the producer fails while a generation for key `k` is in flight
and `k` is not cached, then after the failure path (`failResult`, the
source's `except`/`finally`) the cache still has no entry for `k`, nothing
was queued, and `generating` is clear, so a subsequent `generate_image`
whose position re-derives `k` takes the miss path and spawns a fresh
production (`generating` set, key recorded) — a failure is
indistinguishable from a cache miss. -/
theorem C4_failure_behaves_as_miss (s : GameState) (k : ℤ × ℤ)
    (hg : s.generating = true) (hk : s.cache_key = some k)
    (hmiss : s.image_cache.lookup k = none) :
    (failResult s).image_cache.lookup k = none ∧
    (failResult s).generating = false ∧
    (failResult s).image_queue = s.image_queue ∧
    (quantizeKey s.position = k →
       (generate_image (failResult s)).generating = true ∧
       (generate_image (failResult s)).cache_key = some k ∧
       (generate_image (failResult s)).last_position = some s.position) := by
  refine ⟨hmiss, rfl, rfl, ?_⟩
  intro hq
  unfold generate_image failResult
  simp only [hq]
  simp [hmiss]

/-- Witness for C4: a concrete in-flight state at `(0, 0)` for key
`(0, 0)` with an empty cache; after the failure path a new
`generate_image` spawns a fresh production for the same key. -/
theorem C4_failure_behaves_as_miss_witness :
    (generate_image (failResult c4State)).generating = true ∧
    (generate_image (failResult c4State)).cache_key = some (0, 0) ∧
    (generate_image (failResult c4State)).last_position = some c4State.position :=
  (C4_failure_behaves_as_miss c4State (0, 0) rfl rfl rfl).2.2.2
    (by simp [c4State, initState, quantizeKey, pyInt])

/-! ## Claim C3 -/

/-- C3 counterexample: the claim says the spawned generation unit never
touches the player state and that the `producing` flag is reset by the
caller on the drain path, not by the spawned unit itself.  In the source
the `finally` block of `run_generation` resets `self.generating` — on
both the success and the failure path — and `process_generated_image`
never writes the flag: at the concrete in-flight state `c3State` the
spawned unit's transitions flip `generating` from `true` to `false`,
while the drain leaves it `true`. -/
theorem C3_counterexample :
    c3State.generating = true ∧
    (failResult c3State).generating = false ∧
    (pushResult c3State (0, 0) 5).generating = false ∧
    (process_generated_image c3State).generating = true :=
  ⟨rfl, rfl, rfl, rfl⟩

/-- C3 (amended): the spawned unit's only side effects are one result
push (success) or none (failure, only logged), plus — in both cases —
clearing the `generating` flag itself in its `finally` block; it never
touches position, orientation, current image, `last_position`,
`cache_key`, or the cache, and the drain path never resets the flag. -/
theorem C3_spawned_unit_effects (s : GameState) (k : ℤ × ℤ) (tex : Nat)
    (hg : s.generating = true) (hk : s.cache_key = some k) :
    ((pushResult s k tex).image_queue = s.image_queue ++ [(k, tex)] ∧
     (pushResult s k tex).generating = false ∧
     (pushResult s k tex).image_cache = s.image_cache ∧
     (pushResult s k tex).position = s.position ∧
     (pushResult s k tex).angle = s.angle ∧
     (pushResult s k tex).image = s.image ∧
     (pushResult s k tex).last_position = s.last_position ∧
     (pushResult s k tex).cache_key = s.cache_key) ∧
    ((failResult s).image_queue = s.image_queue ∧
     (failResult s).generating = false ∧
     (failResult s).image_cache = s.image_cache ∧
     (failResult s).position = s.position ∧
     (failResult s).angle = s.angle ∧
     (failResult s).image = s.image ∧
     (failResult s).last_position = s.last_position ∧
     (failResult s).cache_key = s.cache_key) ∧
    (∀ t : GameState, (process_generated_image t).generating = t.generating) := by
  refine ⟨⟨rfl, rfl, rfl, rfl, rfl, rfl, rfl, rfl⟩,
          ⟨rfl, rfl, rfl, rfl, rfl, rfl, rfl, rfl⟩, ?_⟩
  intro t
  unfold process_generated_image
  split <;> rfl

/-- Witness for C3 (amended) at the concrete in-flight state `c3State`. -/
theorem C3_spawned_unit_effects_witness :
    (pushResult c3State (0, 0) 9).image_queue = c3State.image_queue ++ [((0, 0), 9)] ∧
    (failResult c3State).generating = false :=
  ⟨(C3_spawned_unit_effects c3State (0, 0) 9 rfl rfl).1.1,
   (C3_spawned_unit_effects c3State (0, 0) 9 rfl rfl).2.1.2.1⟩

/-! ## Claim C2 -/

/-- C2 counterexample: the claim says one `process_generated_image` call
pops *all* currently available entries and caches each of them; but on
the concrete state `c2State`, whose queue holds two completed results,
one call leaves the second entry still queued and not yet cached. -/
theorem C2_counterexample :
    c2State.image_queue.length = 2 ∧
    (process_generated_image c2State).image_queue = [((1, 1), 2)] ∧
    (process_generated_image c2State).image_cache.lookup (1, 1) = none :=
  ⟨rfl, rfl, rfl⟩

/-- C2 (amended): `process_generated_image`, called once per control-loop
iteration, non-blockingly pops *at most one* entry — the oldest available —
from the result channel, inserting that `(key, artifact)` pair into the
cache and making it the current image, and returns immediately without
blocking (as the identity) when the channel is empty. -/
theorem C2_drain_pops_at_most_one (s : GameState) :
    (s.image_queue = [] → process_generated_image s = s) ∧
    (∀ (k : ℤ × ℤ) (tex : Nat) (rest : List ((ℤ × ℤ) × Nat)),
       s.image_queue = (k, tex) :: rest →
       process_generated_image s =
         { s with image_queue := rest,
                  image_cache := (k, tex) :: s.image_cache,
                  image := some tex }) := by
  constructor
  · intro h
    unfold process_generated_image
    rw [h]
  · intro k tex rest h
    unfold process_generated_image
    rw [h]

/-- Witness for C2 (amended) at the two-entry state `c2State`. -/
theorem C2_drain_pops_at_most_one_witness :
    process_generated_image c2State =
      { c2State with image_queue := [((1, 1), 2)],
                     image_cache := ((0, 0), 1) :: c2State.image_cache,
                     image := some 1 } :=
  (C2_drain_pops_at_most_one c2State).2 (0, 0) 1 [((1, 1), 2)] rfl

/-! ## Claim C5 -/

/-- C5: the regeneration decision does nothing while `generating` is set;
with it clear it leaves the state untouched when `last_position` is set
and the position is within distance `0.1` of it, and it issues a request
(calling `generate_image`, which on a cache miss spawns a production)
exactly when `last_position` is unset or the distance exceeds `0.1`
(`dist2 > 1/100` is the exact-arithmetic form of `‖·‖ > 0.1`).  In
particular, with the last request issued at `(2.5, 2.5)`: at
`(2.55, 2.5)` (distance `0.05`) nothing happens, and at `(2.65, 2.5)`
(distance `0.15`), with the derived key uncached, a production is
spawned. -/
theorem C5_regeneration_policy :
    (∀ s : GameState, s.generating = true → maybe_regenerate s = s) ∧
    (∀ (s : GameState) (p : ℚ × ℚ), s.last_position = some p →
       dist2 s.position p ≤ 1 / 100 → maybe_regenerate s = s) ∧
    (∀ s : GameState,
       (s.last_position = none ∨
        ∃ p, s.last_position = some p ∧ 1 / 100 < dist2 s.position p) →
       maybe_regenerate s = generate_image s) ∧
    (∀ s : GameState, s.generating = false →
       (s.last_position = none ∨
        ∃ p, s.last_position = some p ∧ 1 / 100 < dist2 s.position p) →
       s.image_cache.lookup (quantizeKey s.position) = none →
       (maybe_regenerate s).generating = true ∧
       (maybe_regenerate s).last_position = some s.position ∧
       (maybe_regenerate s).cache_key = some (quantizeKey s.position)) ∧
    (∀ s : GameState, s.last_position = some (5 / 2, 5 / 2) →
       s.position = (51 / 20, 5 / 2) → maybe_regenerate s = s) := by
  have hgen : ∀ s : GameState, s.generating = true → generate_image s = s := by
    intro s h
    unfold generate_image
    rw [if_pos h]
  have hcall : ∀ s : GameState,
      (s.last_position = none ∨
       ∃ p, s.last_position = some p ∧ 1 / 100 < dist2 s.position p) →
      maybe_regenerate s = generate_image s := by
    intro s h
    unfold maybe_regenerate
    rcases h with h | ⟨p, hp, hd⟩
    · rw [h]
    · rw [hp]
      simp only [if_pos hd]
  refine ⟨?_, ?_, hcall, ?_, ?_⟩
  · intro s h
    unfold maybe_regenerate
    rcases hl : s.last_position with _ | p
    · exact hgen s h
    · dsimp only
      split
      · exact hgen s h
      · rfl
  · intro s p hp hd
    unfold maybe_regenerate
    rw [hp]
    simp only [if_neg (not_lt.mpr hd)]
  · intro s hg hfar hmiss
    rw [hcall s hfar]
    unfold generate_image
    simp [hg, hmiss]
  · intro s hp hpos
    unfold maybe_regenerate
    rw [hp]
    dsimp only
    rw [hpos]
    norm_num [dist2]

/-- Witness for C5 at concrete inputs: at `(2.65, 2.5)` with the last
request at `(2.5, 2.5)` and an empty cache, a production is spawned; at
`(2.55, 2.5)` nothing happens. -/
theorem C5_regeneration_policy_witness :
    ((maybe_regenerate c5FarState).generating = true ∧
     (maybe_regenerate c5FarState).last_position = some c5FarState.position ∧
     (maybe_regenerate c5FarState).cache_key = some (quantizeKey c5FarState.position)) ∧
    maybe_regenerate { initState (51 / 20, 5 / 2) with
                         last_position := some (5 / 2, 5 / 2) } =
      { initState (51 / 20, 5 / 2) with last_position := some (5 / 2, 5 / 2) } :=
  ⟨C5_regeneration_policy.2.2.2.1 c5FarState rfl
      (Or.inr ⟨(5 / 2, 5 / 2), rfl, by norm_num [c5FarState, initState, dist2]⟩) rfl,
   C5_regeneration_policy.2.2.2.2 { initState (51 / 20, 5 / 2) with
                                      last_position := some (5 / 2, 5 / 2) }
      rfl (by simp [initState])⟩

/-! ## Claim C1 -/

/-- C1: the claim states that `combine_prompts` stops *before* adding a
label that would push the tokenized length past `max_length`, so that
whenever the first positive-weight label fits, the result fits.  The
source checks the length only *after* appending (`combined += ...` and
then `if len(encode(combined)) > max_length: break`), contradicting its
own header comment "combine prompts without exceeding token limit": with
the length oracle `String.length`, prompts `["ab", "cd"]`, weights
`[1, 1]` and budget `3`, the first label (length 2) fits, yet the
returned request is `"ab | cd"`, of length `7 > 3` — the overflowing
label is kept. -/
theorem C1_truncation_keeps_overflowing_label :
    combine_prompts String.length ["ab", "cd"] [1, 1] 3 = "ab | cd" ∧
    String.length "ab" ≤ 3 ∧
    3 < String.length (combine_prompts String.length ["ab", "cd"] [1, 1] 3) := by
  have h : combine_prompts String.length ["ab", "cd"] [1, 1] 3 = "ab | cd" := by
    norm_num [combine_prompts, combineLoop]
    decide
  refine ⟨h, by decide, ?_⟩
  rw [h]
  decide

/-! ## Claim C9 -/

theorem combineLoop_extends (tok : String → Nat) (maxL : Nat) :
    ∀ (pairs : List (String × ℚ)) (acc : String), acc ≠ "" →
      ∃ t, combineLoop tok maxL pairs acc = acc ++ t := by
  intro pairs
  induction pairs with
  | nil =>
    intro acc _
    exact ⟨"", (String.append_empty acc).symm⟩
  | cons pw rest ih =>
    intro acc hacc
    obtain ⟨p, w⟩ := pw
    by_cases hw : 0 < w
    · simp only [combineLoop, if_pos hw, if_neg hacc]
      by_cases hc : maxL < tok (acc ++ " | " ++ p)
      · rw [if_pos hc]
        exact ⟨" | " ++ p, by simp [String.append_assoc]⟩
      · rw [if_neg hc]
        obtain ⟨t, ht⟩ := ih (acc ++ " | " ++ p) (string_sep_append_ne_empty acc p)
        exact ⟨" | " ++ p ++ t, by rw [ht]; simp [String.append_assoc]⟩
    · simp only [combineLoop, if_neg hw]
      exact ih acc hacc

theorem gridAt_ne_empty (i j : ℤ) (hi0 : 0 ≤ i) (hi4 : i ≤ 4)
    (hj0 : 0 ≤ j) (hj4 : j ≤ 4) : gridAt i j ≠ "" := by
  interval_cases i <;> interval_cases j <;> decide

/-- Stepping `combine_prompts` through four positive-weight labels: the
result is the separator-join of a nonempty initial segment of the labels
(the loop `break`s only after appending a label). -/
theorem combine4_take (tok : String → Nat) (maxL : Nat) (l1 l2 l3 l4 : String)
    (w1 w2 w3 w4 : ℚ) (h1 : 0 < w1) (h2 : 0 < w2) (h3 : 0 < w3) (h4 : 0 < w4)
    (hne : l1 ≠ "") :
    ∃ k, 1 ≤ k ∧ k ≤ 4 ∧
      combine_prompts tok [l1, l2, l3, l4] [w1, w2, w3, w4] maxL =
        sepJoin ([l1, l2, l3, l4].take k) := by
  unfold combine_prompts
  simp only [List.zip_cons_cons, List.zip_nil_left, List.zip_nil_right]
  rw [combineLoop, if_pos h1]
  simp only [eq_self_iff_true, if_true]
  by_cases hc1 : maxL < tok l1
  · exact ⟨1, by omega, by omega, by rw [if_pos hc1]; rfl⟩
  · rw [if_neg hc1, combineLoop, if_pos h2, if_neg hne]
    by_cases hc2 : maxL < tok (l1 ++ " | " ++ l2)
    · exact ⟨2, by omega, by omega, by rw [if_pos hc2]; rfl⟩
    · rw [if_neg hc2, combineLoop, if_pos h3,
          if_neg (string_sep_append_ne_empty l1 l2)]
      by_cases hc3 : maxL < tok (l1 ++ " | " ++ l2 ++ " | " ++ l3)
      · refine ⟨3, by omega, by omega, ?_⟩
        rw [if_pos hc3]
        simp [sepJoin, String.append_assoc]
      · rw [if_neg hc3, combineLoop, if_pos h4,
            if_neg (string_sep_append_ne_empty (l1 ++ " | " ++ l2) l3)]
        refine ⟨4, by omega, by omega, ?_⟩
        have hnil : combineLoop tok maxL []
            (l1 ++ " | " ++ l2 ++ " | " ++ l3 ++ " | " ++ l4) =
            l1 ++ " | " ++ l2 ++ " | " ++ l3 ++ " | " ++ l4 := rfl
        simp only [hnil, ite_self]
        simp [sepJoin, String.append_assoc]

theorem pyInt_int_add_half (i : ℤ) (h : 0 ≤ i) : pyInt ((i : ℚ) + 1 / 2) = i := by
  have h0 : (0 : ℚ) ≤ (i : ℚ) + 1 / 2 := by
    have : (0 : ℚ) ≤ (i : ℚ) := by exact_mod_cast h
    linarith
  rw [pyInt_eq_floor _ h0, add_comm, Int.floor_add_int]
  norm_num

/-- When only the first of four weights is positive, `combine_prompts`
returns exactly the first label, for every tokenizer. -/
theorem combine_first_label (tok : String → Nat) (maxL : Nat)
    (l1 l2 l3 l4 : String) :
    combine_prompts tok [l1, l2, l3, l4] [1, 0, 0, 0] maxL = l1 := by
  unfold combine_prompts
  simp only [List.zip_cons_cons, List.zip_nil_left, List.zip_nil_right]
  rw [combineLoop, if_pos (zero_lt_one (α := ℚ))]
  simp only [eq_self_iff_true, if_true]
  split
  · rfl
  · rw [combineLoop, if_neg (lt_irrefl (0 : ℚ)), combineLoop,
        if_neg (lt_irrefl (0 : ℚ)), combineLoop, if_neg (lt_irrefl (0 : ℚ)),
        combineLoop]

/-- C9: for every tokenizer, (i) at an exact grid corner (integer
position, `tx = ty = 0`) the blend is exactly the single corresponding
label; (ii) at the center of four cells all four bilinear weights are
`1/4` and the blend is the `" | "`-join of a nonempty initial segment of
the four labels in the fixed order `[00, 10, 01, 11]` (truncation only
shortens the segment); (iii) at every in-bounds position the first label
`grid[x0][y0]` — whose weight `(1-tx)(1-ty)` is always positive — leads
the result, which is therefore never the empty string. -/
theorem C9_blend_properties :
    (∀ (tok : String → Nat) (i j : ℤ), 0 ≤ i → i ≤ 4 → 0 ≤ j → j ≤ 4 →
       blendPrompt tok ((i : ℚ), (j : ℚ)) = gridAt i j) ∧
    (∀ (tok : String → Nat) (i j : ℤ), 0 ≤ i → i ≤ 3 → 0 ≤ j → j ≤ 3 →
       (blendInputs ((i : ℚ) + 1 / 2, (j : ℚ) + 1 / 2)).2 =
         [1 / 4, 1 / 4, 1 / 4, 1 / 4] ∧
       ∃ k, 1 ≤ k ∧ k ≤ 4 ∧
         blendPrompt tok ((i : ℚ) + 1 / 2, (j : ℚ) + 1 / 2) =
           sepJoin (([gridAt i j, gridAt (i + 1) j,
                      gridAt i (j + 1), gridAt (i + 1) (j + 1)]).take k)) ∧
    (∀ (tok : String → Nat) (pos : ℚ × ℚ), inBounds pos →
       (∃ t, blendPrompt tok pos = gridAt (pyInt pos.1) (pyInt pos.2) ++ t) ∧
       blendPrompt tok pos ≠ "") := by
  have center : ∀ i j : ℤ, 0 ≤ i → i ≤ 3 → 0 ≤ j → j ≤ 3 →
      blendInputs ((i : ℚ) + 1 / 2, (j : ℚ) + 1 / 2) =
        ([gridAt i j, gridAt (i + 1) j, gridAt i (j + 1), gridAt (i + 1) (j + 1)],
         [1 / 4, 1 / 4, 1 / 4, 1 / 4]) := by
    intro i j hi0 hi3 hj0 hj3
    simp only [blendInputs, pyInt_int_add_half i hi0, pyInt_int_add_half j hj0,
               grid_size]
    rw [min_eq_left (by omega : i + 1 ≤ 5 - 1),
        min_eq_left (by omega : j + 1 ≤ 5 - 1)]
    norm_num
  refine ⟨?_, ?_, ?_⟩
  · intro tok i j hi0 hi4 hj0 hj4
    have hbi : blendInputs ((i : ℚ), (j : ℚ)) =
        ([gridAt i j, gridAt (min (i + 1) 4) j, gridAt i (min (j + 1) 4),
          gridAt (min (i + 1) 4) (min (j + 1) 4)], [1, 0, 0, 0]) := by
      simp only [blendInputs, pyInt_intCast, grid_size]
      norm_num
    unfold blendPrompt
    rw [hbi]
    exact combine_first_label tok 77 _ _ _ _
  · intro tok i j hi0 hi3 hj0 hj3
    have hbi := center i j hi0 hi3 hj0 hj3
    constructor
    · rw [hbi]
    · have := combine4_take tok 77 (gridAt i j) (gridAt (i + 1) j)
        (gridAt i (j + 1)) (gridAt (i + 1) (j + 1)) (1 / 4) (1 / 4) (1 / 4) (1 / 4)
        (by norm_num) (by norm_num) (by norm_num) (by norm_num)
        (gridAt_ne_empty i j hi0 (by omega) hj0 (by omega))
      unfold blendPrompt
      rw [hbi]
      exact this
  · intro tok pos hb
    obtain ⟨hx0, hx4, hy0, hy4⟩ := hb
    have hx4' : pos.1 ≤ 4 := by
      have : ((grid_size.1 : ℚ) - 1) = 4 := by norm_num [grid_size]
      rw [this] at hx4; exact hx4
    have hy4' : pos.2 ≤ 4 := by
      have : ((grid_size.2 : ℚ) - 1) = 4 := by norm_num [grid_size]
      rw [this] at hy4; exact hy4
    have hvi := pyInt_validIndex pos.1 hx0 hx4'
    have hvj := pyInt_validIndex pos.2 hy0 hy4'
    have hl1 : gridAt (pyInt pos.1) (pyInt pos.2) ≠ "" :=
      gridAt_ne_empty _ _ hvi.1 (by have h5 := hvi.2; omega) hvj.1
        (by have h5 := hvj.2; omega)
    have htx : pos.1 - (pyInt pos.1 : ℚ) < 1 := by
      rw [pyInt_eq_floor _ hx0]
      have := Int.lt_floor_add_one pos.1
      linarith
    have hty : pos.2 - (pyInt pos.2 : ℚ) < 1 := by
      rw [pyInt_eq_floor _ hy0]
      have := Int.lt_floor_add_one pos.2
      linarith
    have hw00 : 0 < (1 - (pos.1 - (pyInt pos.1 : ℚ))) *
        (1 - (pos.2 - (pyInt pos.2 : ℚ))) :=
      mul_pos (by linarith) (by linarith)
    have key : ∃ t, blendPrompt tok pos = gridAt (pyInt pos.1) (pyInt pos.2) ++ t := by
      unfold blendPrompt combine_prompts blendInputs
      simp only [List.zip_cons_cons, List.zip_nil_left, List.zip_nil_right]
      rw [combineLoop, if_pos hw00]
      simp only [eq_self_iff_true, if_true]
      by_cases hc : 77 < tok (gridAt (pyInt pos.1) (pyInt pos.2))
      · rw [if_pos hc]
        exact ⟨"", (String.append_empty _).symm⟩
      · rw [if_neg hc]
        exact combineLoop_extends tok 77 _ _ hl1
    obtain ⟨t, ht⟩ := key
    exact ⟨⟨t, ht⟩, by rw [ht]; exact string_append_ne_empty_left _ _ hl1⟩

/-- Witness for C9 at concrete inputs: at the corner `(0, 0)` the blend
with the constant-zero length oracle is the single label of cell
`(0, 0)`, and at `(2.5, 2.5)` the blend is nonempty. -/
theorem C9_blend_properties_witness :
    blendPrompt (fun _ => 0) (((0 : ℤ) : ℚ), ((0 : ℤ) : ℚ)) = gridAt 0 0 ∧
    blendPrompt (fun _ => 0) (5 / 2, 5 / 2) ≠ "" :=
  ⟨C9_blend_properties.1 (fun _ => 0) 0 0 (by decide) (by decide) (by decide)
      (by decide),
   (C9_blend_properties.2.2 (fun _ => 0) (5 / 2, 5 / 2)
      (by norm_num [inBounds, grid_size])).2⟩

/-! ## Claim C6 -/

theorem c6_step1 : maybe_regenerate (initState (5 / 2, 5 / 2)) = c6s1 := by
  norm_num [maybe_regenerate, initState, generate_image, quantizeKey, pyInt, c6s1]

theorem c6_step2 : moveFn c6s1 (9 / 200, 9 / 200) = c6s2 := by
  norm_num [moveFn, npClip, c6s1, c6s2, grid_size, min_def, max_def]

theorem c6_step3 : moveFn c6s2 (9 / 200, 9 / 200) = c6s3 := by
  norm_num [moveFn, npClip, c6s1, c6s2, c6s3, grid_size, min_def, max_def]

theorem c6_step4 : pushResult c6s3 (25, 25) 1 = c6s4 := rfl

theorem c6_step5 : moveFn c6s4 (9 / 1000, 9 / 1000) = c6s5 := by
  norm_num [moveFn, npClip, c6s1, c6s2, c6s3, c6s4, c6s5, grid_size, min_def,
            max_def]

theorem c6_step6 : maybe_regenerate c6s5 = c6s6 := by
  norm_num [maybe_regenerate, c6s1, c6s2, c6s3, c6s4, c6s5, c6s6, dist2,
            generate_image, quantizeKey, pyInt]

theorem c6_step7 : process_generated_image c6s6 = c6s7 := rfl

theorem c6_step8 : pushResult c6s7 (25, 25) 2 = c6s8 := rfl

theorem c6_step9 : process_generated_image c6s8 = c6s9 := rfl

/-- C6 counterexample: the claim says a cached artifact is never
overwritten by a different one along any reachable operation sequence.
But `c6s7` is reachable from the initial state, its cache maps key
`(25, 25)` to texture 1 (`cache.complete((25,25), 1)` has happened), and
two further steps (completion of the second production for the *same*
key, then a drain) reach `c6s9`, where lookup of `(25, 25)` returns
texture 2 — a different artifact.  The second production arises because
the key cell `(25, 25)` has diameter `0.1·√2 > 0.1`, so a move can
exceed the regeneration threshold while staying in the same cell, at a
moment when the first result is still queued and hence not yet visible
to the cache-hit check. -/
theorem C6_counterexample :
    Reachable c6s7 ∧
    Relation.ReflTransGen Step c6s7 c6s9 ∧
    c6s7.image_cache.lookup (25, 25) = some 1 ∧
    c6s9.image_cache.lookup (25, 25) = some 2 := by
  have h1 : Step (initState (5 / 2, 5 / 2)) c6s1 := c6_step1 ▸ Step.regen _
  have h2 : Step c6s1 c6s2 := c6_step2 ▸ Step.move c6s1 (9 / 200, 9 / 200)
  have h3 : Step c6s2 c6s3 := c6_step3 ▸ Step.move c6s2 (9 / 200, 9 / 200)
  have h4 : Step c6s3 c6s4 := c6_step4 ▸ Step.gen_success c6s3 (25, 25) 1 rfl rfl
  have h5 : Step c6s4 c6s5 := c6_step5 ▸ Step.move c6s4 (9 / 1000, 9 / 1000)
  have h6 : Step c6s5 c6s6 := c6_step6 ▸ Step.regen c6s5
  have h7 : Step c6s6 c6s7 := c6_step7 ▸ Step.drain c6s6
  have h8 : Step c6s7 c6s8 := c6_step8 ▸ Step.gen_success c6s7 (25, 25) 2 rfl rfl
  have h9 : Step c6s8 c6s9 := c6_step9 ▸ Step.drain c6s8
  have r1 : Reachable c6s1 := Relation.ReflTransGen.single h1
  exact ⟨(((((r1.tail h2).tail h3).tail h4).tail h5).tail h6).tail h7,
         (Relation.ReflTransGen.single h8).tail h9, rfl, rfl⟩

/-- C6 (amended): cache entries are never *removed*: each step either
leaves the cache unchanged or conses one new binding onto it, so once a
key has an artifact, every later lookup of that key still returns *an*
artifact — but not necessarily the same one, since a later completed
production for the same key (reachable, see the counterexample) shadows
the earlier binding. -/
theorem C6_cache_entries_never_removed :
    (∀ s u : GameState, Step s u →
       u.image_cache = s.image_cache ∨
       ∃ e, u.image_cache = e :: s.image_cache) ∧
    (∀ s u : GameState, Relation.ReflTransGen Step s u →
       ∀ (k : ℤ × ℤ) (v : Nat), s.image_cache.lookup k = some v →
       ∃ w, u.image_cache.lookup k = some w) := by
  have step_shape : ∀ s u : GameState, Step s u →
      u.image_cache = s.image_cache ∨
      ∃ e, u.image_cache = e :: s.image_cache := by
    intro s u hsu
    cases hsu with
    | move d => exact Or.inl rfl
    | look d => exact Or.inl rfl
    | regen => exact Or.inl (maybe_regenerate_cache_eq s)
    | gen_success k tex hg hk => exact Or.inl rfl
    | gen_fail hg => exact Or.inl rfl
    | drain =>
      unfold process_generated_image
      split
      · exact Or.inl rfl
      · exact Or.inr ⟨_, rfl⟩
  have step_keep : ∀ s u : GameState, Step s u → ∀ (k : ℤ × ℤ) (v : Nat),
      s.image_cache.lookup k = some v → ∃ w, u.image_cache.lookup k = some w := by
    intro s u hsu k v hv
    rcases step_shape s u hsu with he | ⟨⟨k0, v0⟩, he⟩
    · exact ⟨v, by rw [he]; exact hv⟩
    · rw [he, lookup_cons]
      by_cases hk : k = k0
      · rw [if_pos hk]; exact ⟨v0, rfl⟩
      · rw [if_neg hk]; exact ⟨v, hv⟩
  refine ⟨step_shape, ?_⟩
  intro s u hr
  induction hr with
  | refl => exact fun k v hv => ⟨v, hv⟩
  | tail hsteps hstep ih =>
    intro k v hv
    obtain ⟨w, hw⟩ := ih k v hv
    exact step_keep _ _ hstep k w hw

/-- Witness for C6 (amended): from `c6s8`, whose cache holds texture 1
for key `(25, 25)`, one drain step still leaves some artifact cached for
that key. -/
theorem C6_cache_entries_never_removed_witness :
    ∃ w, (process_generated_image c6s8).image_cache.lookup (25, 25) = some w :=
  C6_cache_entries_never_removed.2 c6s8 (process_generated_image c6s8)
    (Relation.ReflTransGen.single (Step.drain c6s8)) (25, 25) 1 rfl
